import Mathlib

/-!
Verification of the ppbt toolchain packaging library against its
natural-language specification.  The Python sources (`src/ppbt/common.py`
and `src/ppbt/build.py`) are shallowly embedded below: pure helpers become
Lean functions, filesystem- and process-effecting code becomes explicit
state passing together with an effect trace, and host-dependent values
(`sys.platform`, `platform.machine()`) become explicit parameters.
The file is organised as the embedding's definitions first, followed by
the theorems, one group per claim.
-/

deriving instance DecidableEq for Except

namespace PPBT

/-!
Embedding of `get_triplet` and `build_arch` (src/ppbt/common.py lines
27-62).
-/

/-- Python truthiness test used by `get_triplet`: `if not plat:` and
`if not machine:` treat both `None` and the empty string as absent. -/
def falsy : Option String → Bool
  | none => true
  | some s => s = ""

/-- Embedding of `build_arch()` (common.py lines 57-62): the host machine
name lowercased (`platform.machine().lower()`).  `platform.machine()` is
the explicit `hostMachine` parameter; `str.lower()` is modelled
character by character. -/
def build_arch (hostMachine : String) : String :=
  ⟨hostMachine.data.map Char.toLower⟩

/-- Embedding of `get_triplet(machine, plat)` (common.py lines 27-54).
`sysPlatform` stands for `sys.platform` and `hostMachine` for
`platform.machine()`; a raised `PPBTException` becomes `.error`. -/
def get_triplet (sysPlatform hostMachine : String)
    (machine plat : Option String) : Except String String :=
  let p := if falsy plat then sysPlatform else plat.getD ""
  let m := if falsy machine then build_arch hostMachine else machine.getD ""
  if p = "darwin" then .ok (m ++ "-macos")
  else if p = "win32" then .ok (m ++ "-win")
  else if p = "linux" then .ok (m ++ "-linux-gnu")
  else .error ("Unknown platform " ++ p)

/-!
Embedding of `extract_archive` (common.py lines 76-94).

Paths are modelled as lists of components.  `tarfile.extractall(to_dir)`
without a `filter` argument writes each member at
`os.path.join(to_dir, member.name)`, letting the operating system resolve
any `..` components; it applies no containment check (this is the
documented behaviour of the Python standard library used by the code).
-/

/-- One tar archive member, identified by the path components of its
stored name. -/
structure TarMember where
  name : List String
  deriving DecidableEq

/-- Filesystem resolution of one path component on top of an absolute
component stack: `.` is dropped, `..` pops the last component. -/
def normStep (stack : List String) (c : String) : List String :=
  if c = "." then stack
  else if c = ".." then stack.dropLast
  else stack ++ [c]

/-- Resolve a component list from the filesystem root. -/
def resolvePath (p : List String) : List String :=
  p.foldl normStep []

/-- Test for `str.endswith` on raw character data. -/
def strEndsWith (s suff : String) : Bool :=
  suff.data.isSuffixOf s.data

/-- Embedding of the suffix sniffing in `extract_archive`
(common.py lines 85-92). -/
def archive_read_type (archive : String) : String :=
  if strEndsWith archive "tgz" then "r:gz"
  else if strEndsWith archive "xz" then "r:xz"
  else if strEndsWith archive "bz2" then "r:bz2"
  else "r"

/-- Semantics of `tarfile.extractall(to_dir)` with no filter: every member
is written at the resolution of `to_dir ++ member.name`, unconditionally. -/
def tar_extractall (to_dir : List String) (members : List TarMember) :
    List (List String) :=
  members.map (fun m => resolvePath (to_dir ++ m.name))

/-- Embedding of `extract_archive(to_dir, archive)` (common.py lines
76-94): picks the read mode from the filename suffix, then extracts all
members.  The result is the read mode and the list of written paths; the
function never rejects a member. -/
def extract_archive (to_dir : List String) (archive : String)
    (members : List TarMember) : Except String (String × List (List String)) :=
  .ok (archive_read_type archive, tar_extractall to_dir members)

/-- Containment check: `p` lies under directory `dir`. -/
def withinDir (dir p : List String) : Bool :=
  dir = p.take dir.length

/-!
Embedding of `extract` and `environ` (common.py lines 97-141).

The module-level constants `TOOLCHAIN`, `ARCHIVE` and `DISTINFO` denote
filesystem locations; the state the functions read and write is captured
by `ToolchainFS`, and every side effect performed is recorded in an
effect trace.
-/

/-- One row of a csv record file: `(path, hash-spec, size)` as written by
`build_ppbt` and read back by `extract`. -/
abbrev Row := String × String × String

/-- Ordering of record rows used by `sorted(records, key=lambda _: _[0])`:
compare the path field. -/
def rowle (a b : Row) : Prop := a.1 ≤ b.1

instance : DecidableRel rowle := fun a b =>
  inferInstanceAs (Decidable (a.1 ≤ b.1))

instance : IsTotal Row rowle := ⟨fun a b => le_total a.1 b.1⟩

instance : IsTrans Row rowle := ⟨fun _ _ _ h1 h2 => le_trans h1 h2⟩

/-- The filesystem state `extract` and `environ` interact with:
whether the `TOOLCHAIN` directory exists, whether the dist-info `RECORD`
file exists, its rows, and the rows of the `ARCHIVE + ".record"`
manifest shipped next to the archive. -/
structure ToolchainFS where
  toolchainExists : Bool
  recordExists : Bool
  recordRows : List Row
  archiveRecordRows : List Row
  deriving DecidableEq

/-- Side effects `extract` can perform. -/
inductive FSEffect where
  | extractArchive
  | readRecord
  | readArchiveRecord
  | writeRecord (rows : List Row)
  deriving DecidableEq

/-- Embedding of `extract(overwrite)` (common.py lines 97-120).  When the
toolchain directory exists and `overwrite` is false nothing happens;
otherwise the archive is extracted, and when the dist-info `RECORD`
exists, its rows and the archive manifest rows are concatenated, stably
sorted by the path field (`sorted` with `key=lambda _: _[0]`), and
written back. -/
def extract (s : ToolchainFS) (overwrite : Bool) : ToolchainFS × List FSEffect :=
  if s.toolchainExists && !overwrite then
    (s, [])
  else
    let s1 := { s with toolchainExists := true }
    if s.recordExists then
      let records := s.recordRows ++ s.archiveRecordRows
      let records := List.insertionSort rowle records
      ({ s1 with recordRows := records },
       [.extractArchive, .readRecord, .readArchiveRecord, .writeRecord records])
    else
      (s1, [.extractArchive])

/-- Embedding of the mapping literal returned by `environ` (common.py
lines 132-141), as a function of the `TOOLCHAIN` path and `TRIPLET`. -/
def environ_map (toolchain triplet : String) : List (String × String) :=
  [("TOOLCHAIN_PATH", toolchain),
   ("CC", toolchain ++ "/bin/" ++ triplet ++ "-gcc"),
   ("CXX", toolchain ++ "/bin/" ++ triplet ++ "-g++"),
   ("CFLAGS", "-I" ++ toolchain ++ "/" ++ triplet ++ "/sysroot/usr/include"),
   ("CPPFLAGS", "-I" ++ toolchain ++ "/" ++ triplet ++ "/sysroot/usr/include"),
   ("CMAKE_FLAGS", "-I" ++ toolchain ++ "/" ++ triplet ++ "/sysroot/usr/include"),
   ("LDFLAGS", "-L" ++ toolchain ++ "/" ++ triplet ++ "/sysroot/lib")]

/-- Embedding of `environ(auto_extract)` (common.py lines 123-141): when
the toolchain directory is missing, either extract (auto_extract) or
raise `RuntimeError("Toolchain not extracted")`; then return the
environment mapping.  The result carries the final state, the effect
trace, and the mapping. -/
def environ (s : ToolchainFS) (toolchain triplet : String)
    (auto_extract : Bool) :
    Except String (ToolchainFS × List FSEffect × List (String × String)) :=
  if !s.toolchainExists then
    if auto_extract then
      let r := extract s false
      .ok (r.1, r.2, environ_map toolchain triplet)
    else
      .error "Toolchain not extracted"
  else
    .ok (s, [], environ_map toolchain triplet)

/-- Sample rows used by concrete witnesses below. -/
def rowB : Row := ("ppbt/b", "sha256=hb", "2")

/-- Second sample row, path-smaller than `rowB`. -/
def rowA : Row := ("ppbt/a", "sha256=ha", "1")

/-- Sample state: toolchain missing, record present. -/
def fsSample : ToolchainFS :=
  { toolchainExists := false, recordExists := true,
    recordRows := [rowB], archiveRecordRows := [rowA] }

/-!
Embedding of `fetch_url` and `download_url` (src/ppbt/build.py lines
58-121).

The transient-failure scenario of the claim is modelled by a parameter
`k`: the `urllib.request.urlopen` call raises a transient error on
attempts `1..k` and succeeds from attempt `k+1` on.  The embedding
returns the list of sleep durations performed (`time.sleep(n * 10)`, in
order); a propagated exception becomes `.error`.
-/

/-- Sleep durations `(n+1)*10, (n+2)*10, ...` for `j` consecutive failed
attempts starting after attempt `n`. -/
def sleepsFrom (n : Nat) : Nat → List Nat
  | 0 => []
  | j + 1 => (n + 1) * 10 :: sleepsFrom (n + 1) j

/-- One-to-one embedding of the retry loop of `fetch_url` (build.py lines
66-78): `n` is the loop counter, `sleeps` the sleeps performed so far,
and `fuel` a structural bound on the remaining iterations (the loop runs
at most `backoff` times).  Attempt `n+1` raises iff `n + 1 ≤ k`; a raise
on the final attempt propagates (`.error`), otherwise the loop sleeps
`(n+1)*10` and retries.  A successful open does not leave the loop; the
loop ends when `n` reaches `backoff`. -/
def fetch_url_go (k backoff : Nat) : Nat → List Nat → Nat → Except (List Nat) (List Nat)
  | _, sleeps, 0 => .ok sleeps
  | n, sleeps, fuel + 1 =>
    if n < backoff then
      if n + 1 ≤ k then
        if backoff ≤ n + 1 then .error sleeps
        else fetch_url_go k backoff (n + 1) (sleeps ++ [(n + 1) * 10]) fuel
      else fetch_url_go k backoff (n + 1) sleeps fuel
    else .ok sleeps

/-- Embedding of `fetch_url(url, fp, backoff, timeout)` (build.py lines
58-86): `backoff` is clamped to at least 1, then the retry loop runs; on
normal loop exit the body is streamed to `fp` (success). -/
def fetch_url (k backoff : Nat) : Except (List Nat) (List Nat) :=
  let b := if backoff < 1 then 1 else backoff
  fetch_url_go k b 0 [] (b + 1)

/-- Observable outcome of `download_url`: whether it returned normally,
how many files are left at the destination, and the sleeps performed. -/
structure DownloadResult where
  success : Bool
  filesAtDest : Nat
  sleeps : List Nat
  deriving DecidableEq

/-- Embedding of `download_url(url, dest, verbose, backoff, timeout)`
(build.py lines 89-121): `open(local, "wb")` creates the destination
file; on any exception from `fetch_url` the partial file is unlinked and
the exception re-raised; on success exactly the one downloaded file
remains. -/
def download_url (k backoff : Nat) : DownloadResult :=
  match fetch_url k backoff with
  | .ok s => ⟨true, 1, s⟩
  | .error s => ⟨false, 0, s⟩

/-!
Embedding of the manifest writer of `build_ppbt` (build.py lines
259-274).

The `os.walk` enumeration of the built tree is the input `walk`: one
entry per regular file, giving its path relative to the build directory
and its bytes.  `os.walk` returns directory entries in an
operating-system-dependent order, so the enumeration order is an input,
not a function of the tree.  `hashlib.sha256` composed with the base64
encoding is the opaque parameter `sha256`.
-/

/-- One file yielded by the walk: path relative to the build dir, bytes. -/
abbrev WalkedFile := String × List Nat

/-- The csv row written for one walked file (build.py lines 266-274):
the path re-rooted under `ppbt/_toolchain`, the `sha256=` hash field,
and the byte length. -/
def record_row (sha256 : List Nat → String) (f : WalkedFile) : Row :=
  ("ppbt/_toolchain/" ++ f.1, "sha256=" ++ sha256 f.2, toString f.2.length)

/-- Embedding of the record-writing loop of `build_ppbt` (build.py lines
259-274): the csv writer appends one row per walked file, in walk
order. -/
def build_record (sha256 : List Nat → String) (walk : List WalkedFile) : List Row :=
  walk.foldl (fun rows f => rows ++ [record_row sha256 f]) []

/-- Stand-in for the opaque hash used in concrete evaluations. -/
def hashStub : List Nat → String := fun _ => "0"

/-!
Embedding of `runcmd` and the `build_ppbt` pipeline (build.py lines
124-283).

Subprocess exit codes are an input `codes : Cmd → Nat`; existence checks
that gate each pipeline stage are the `BuildFlags` booleans.  Commands
wrapped in `runcmd` raise `BuildError` on a non-zero exit; the
`git clone`, patchelf `./configure`, patchelf `make` and `tar`
invocations call `subprocess.run` directly, so their exit codes are never
inspected.  Network downloads (`download_url`) are modelled as
succeeding; their failure behaviour is covered separately above.
-/

/-- The subprocess invocations `build_ppbt` can make, in pipeline order. -/
inductive Cmd where
  | gitClone
  | ctngConfigure
  | ctngMake
  | ctngSource
  | ctngBuild
  | pelfConfigure
  | pelfMake
  | tarCreate
  deriving DecidableEq

/-- Existence checks gating the pipeline stages of `build_ppbt`. -/
structure BuildFlags where
  branch : Option String
  ctngdirExists : Bool
  ctngExists : Bool
  archdirExists : Bool
  configExists : Bool
  sourceExists : Bool
  patchelfExists : Bool
  deriving DecidableEq

/-- How `build_ppbt` terminates: normal return, a raised `BuildError`
with its message, or `sys.exit` with a status code and the diagnostic
printed just before it. -/
inductive BuildOutcome where
  | ok
  | buildError (msg : String)
  | exited (code : Nat) (diag : String)
  deriving DecidableEq

/-- Embedding of `runcmd(*args)` (build.py lines 124-139): given the exit
code of the spawned process, raise `BuildError("Build cmd '...' failed")`
on a non-zero exit, carrying the space-joined command line, else return. -/
def runcmd (args : List String) (returncode : Nat) : Except String Nat :=
  if returncode ≠ 0 then
    .error ("Build cmd '" ++ String.intercalate " " args ++ "' failed")
  else
    .ok returncode

/-- Patchelf acquisition/build and archive creation (build.py lines
234-278): patchelf's `./configure` and `make` and the `tar` invocation
go through bare `subprocess.run`, so they execute and their exit codes
are discarded; the record write and copies follow, and the function
returns normally. -/
def stagePatchelf (f : BuildFlags) (trace : List Cmd) :
    BuildOutcome × List Cmd :=
  let trace := if !f.patchelfExists then
    trace ++ [Cmd.pelfConfigure, Cmd.pelfMake] else trace
  (.ok, trace ++ [Cmd.tarCreate])

/-- Toolchain build stage (build.py lines 191-232): when the arch dir is
missing, a missing config exits the process with status 1 after printing
the diagnostic; otherwise `ct-ng source` and `ct-ng build` run through
`runcmd`. -/
def stageBuild (ctng configPath : String) (f : BuildFlags)
    (codes : Cmd → Nat) (trace : List Cmd) : BuildOutcome × List Cmd :=
  if !f.archdirExists then
    if !f.configExists then
      (.exited 1 ("Toolchain config missing: " ++ configPath), trace)
    else
      match runcmd [ctng, "source"] (codes .ctngSource) with
      | .error m => (.buildError m, trace ++ [Cmd.ctngSource])
      | .ok _ =>
        match runcmd [ctng, "build"] (codes .ctngBuild) with
        | .error m => (.buildError m, trace ++ [Cmd.ctngSource, Cmd.ctngBuild])
        | .ok _ => stagePatchelf f (trace ++ [Cmd.ctngSource, Cmd.ctngBuild])
  else
    stagePatchelf f trace

/-- Generator compilation stage (build.py lines 174-180): when `ct-ng`
is absent, `./configure --enable-local` and `make` run through
`runcmd`. -/
def stageCompileCtng (ctng configPath : String) (f : BuildFlags)
    (codes : Cmd → Nat) (trace : List Cmd) : BuildOutcome × List Cmd :=
  if !f.ctngExists then
    match runcmd ["./configure", "--enable-local"] (codes .ctngConfigure) with
    | .error m => (.buildError m, trace ++ [Cmd.ctngConfigure])
    | .ok _ =>
      match runcmd ["make"] (codes .ctngMake) with
      | .error m => (.buildError m, trace ++ [Cmd.ctngConfigure, Cmd.ctngMake])
      | .ok _ => stageBuild ctng configPath f codes
          (trace ++ [Cmd.ctngConfigure, Cmd.ctngMake])
  else
    stageBuild ctng configPath f codes trace

/-- Embedding of `build_ppbt(branch, use_tempdir)` (build.py lines
142-283) as a function of the stage-existence flags and the subprocess
exit codes: generator acquisition (a bare `subprocess.run` git clone when
a branch is given and the directory is missing), generator compilation,
toolchain build, patchelf and archiving.  Returns the outcome and the
trace of subprocesses spawned. -/
def build_ppbt_sim (ctng configPath : String) (f : BuildFlags)
    (codes : Cmd → Nat) : BuildOutcome × List Cmd :=
  let trace := if f.branch.isSome && !f.ctngdirExists then [Cmd.gitClone] else []
  stageCompileCtng ctng configPath f codes trace

/-- Flags of a fresh build tree: nothing cached, config file present. -/
def freshFlags : BuildFlags :=
  { branch := none, ctngdirExists := false, ctngExists := false,
    archdirExists := false, configExists := true,
    sourceExists := false, patchelfExists := false }

/-- Exit codes where only the `tar` invocation fails. -/
def tarFailCodes : Cmd → Nat
  | .tarCreate => 1
  | _ => 0

/-- Exit codes where only the generator `make` fails. -/
def makeFailCodes : Cmd → Nat
  | .ctngMake => 1
  | _ => 0

/-- Exit codes where every subprocess succeeds. -/
def zeroCodes : Cmd → Nat := fun _ => 0

/-!
Claim C1: triplet resolution.
-/

/-- Claim C1 as stated is false at the machine string `""`: Python's
`if not machine:` treats the empty string as absent and substitutes
`build_arch()`, so on a host whose machine is `x86_64` the call
`get_triplet("", "linux")` returns `"x86_64-linux-gnu"`, not
`"-linux-gnu"`. -/
theorem get_triplet_claim_false :
    get_triplet "linux" "x86_64" (some "") (some "linux") =
      .ok "x86_64-linux-gnu" ∧
    get_triplet "linux" "x86_64" (some "") (some "linux") ≠
      .ok ("" ++ "-linux-gnu") := by
  constructor
  · decide
  · decide

/-- Claim C1 (amended): for every NON-EMPTY machine string `m`,
`get_triplet(m, "linux") = m ++ "-linux-gnu"`, darwin maps to `-macos`,
win32 to `-win`, and every non-empty platform outside
{linux, darwin, win32} raises the unknown-platform error.  The result is
independent of the host parameters, hence deterministic and pure. -/
theorem get_triplet_spec (sysPlatform hostMachine m p : String)
    (hm : m ≠ "") :
    get_triplet sysPlatform hostMachine (some m) (some "linux") =
      .ok (m ++ "-linux-gnu") ∧
    get_triplet sysPlatform hostMachine (some m) (some "darwin") =
      .ok (m ++ "-macos") ∧
    get_triplet sysPlatform hostMachine (some m) (some "win32") =
      .ok (m ++ "-win") ∧
    (p ≠ "" → p ≠ "linux" → p ≠ "darwin" → p ≠ "win32" →
      get_triplet sysPlatform hostMachine (some m) (some p) =
        .error ("Unknown platform " ++ p)) := by
  refine ⟨?_, ?_, ?_, ?_⟩
  · simp [get_triplet, falsy, hm]
  · simp [get_triplet, falsy, hm]
  · simp [get_triplet, falsy, hm]
  · intro hp h1 h2 h3
    simp [get_triplet, falsy, hm, hp, h1, h2, h3]

/-- Witness for `get_triplet_spec` at the concrete machine `x86_64` and
the unsupported platform `plan9`. -/
theorem get_triplet_spec_witness :
    get_triplet "linux" "arm64" (some "x86_64") (some "linux") =
      .ok ("x86_64" ++ "-linux-gnu") ∧
    get_triplet "linux" "arm64" (some "x86_64") (some "plan9") =
      .error ("Unknown platform " ++ "plan9") :=
  ⟨(get_triplet_spec "linux" "arm64" "x86_64" "plan9" (by decide)).1,
   (get_triplet_spec "linux" "arm64" "x86_64" "plan9" (by decide)).2.2.2
     (by decide) (by decide) (by decide) (by decide)⟩

/-!
Claim C2: extraction and path traversal.
-/

/-- Claim C2 is wrong about the code: `extract_archive` imposes no
containment check.  An archive holding a member named `../evil`, extracted
to `/opt/toolchain`, is accepted (no failure) and the member is written to
`/opt/evil`, which is outside the target directory. -/
theorem extract_archive_escape :
    extract_archive ["opt", "toolchain"] "evil.tar.xz" [⟨["..", "evil"]⟩] =
      .ok ("r:xz", [["opt", "evil"]]) ∧
    withinDir ["opt", "toolchain"] ["opt", "evil"] = false := by
  decide

/-!
Claim C3: download retry semantics.
-/

/-- Behaviour of the retry loop when even the last attempt fails
(`backoff ≤ k`): the exception propagates after sleeping once per
non-final failed attempt. -/
theorem fetch_url_go_error (k b : Nat) (hbk : b ≤ k) :
    ∀ fuel n sleeps, n < b → b ≤ n + fuel →
      fetch_url_go k b n sleeps fuel = .error (sleeps ++ sleepsFrom n (b - 1 - n)) := by
  intro fuel
  induction fuel with
  | zero => intro n sleeps hn hfuel; omega
  | succ fuel ih =>
    intro n sleeps hn hfuel
    have hk : n + 1 ≤ k := by omega
    by_cases hlast : b ≤ n + 1
    · have hb : b - 1 - n = 0 := by omega
      simp [fetch_url_go, hn, hk, hlast, hb, sleepsFrom]
    · have hrec := ih (n + 1) (sleeps ++ [(n + 1) * 10]) (by omega) (by omega)
      have hb : b - 1 - n = (b - 1 - (n + 1)) + 1 := by omega
      simp only [fetch_url_go, if_pos hn, if_pos hk, if_neg hlast, hrec, hb,
        sleepsFrom, List.append_assoc, List.singleton_append]

/-- Behaviour of the retry loop when some attempt within the budget
succeeds (`k < backoff`): the loop runs to completion and the fetch
succeeds, after sleeping once per failed attempt. -/
theorem fetch_url_go_ok (k b : Nat) (hkb : k < b) :
    ∀ fuel n sleeps, n ≤ b → b ≤ n + fuel →
      fetch_url_go k b n sleeps fuel = .ok (sleeps ++ sleepsFrom n (k - n)) := by
  intro fuel
  induction fuel with
  | zero =>
    intro n sleeps hn hfuel
    have hnb : ¬ n < b := by omega
    have hkn : k - n = 0 := by omega
    simp [fetch_url_go, hnb, hkn, sleepsFrom]
  | succ fuel ih =>
    intro n sleeps hn hfuel
    by_cases hnb : n < b
    · by_cases hk : n + 1 ≤ k
      · have hlast : ¬ b ≤ n + 1 := by omega
        have hrec := ih (n + 1) (sleeps ++ [(n + 1) * 10]) (by omega) (by omega)
        have hkn : k - n = (k - (n + 1)) + 1 := by omega
        simp only [fetch_url_go, if_pos hnb, if_pos hk, if_neg hlast, hrec, hkn,
          sleepsFrom, List.append_assoc, List.singleton_append]
      · have hrec := ih (n + 1) sleeps (by omega) (by omega)
        have h1 : k - (n + 1) = 0 := by omega
        have h2 : k - n = 0 := by omega
        simp only [fetch_url_go, if_pos hnb, if_neg hk, hrec, h1, h2, sleepsFrom]
    · have hkn : k - n = 0 := by omega
      simp [fetch_url_go, hnb, hkn, sleepsFrom]

/-- Claim C3 as stated is false at `k = 0`, `backoff_attempts = 0`: the
claim demands that `backoff_attempts <= k` re-raise the failure and leave
zero files, but `fetch_url` clamps `backoff` to at least 1
(build.py lines 64-65), the single attempt succeeds (the fetch never
fails when `k = 0`), and `download_url` returns normally leaving one
file at the destination with no sleeps. -/
theorem download_url_claim_false :
    (0 : Nat) ≤ 0 ∧ download_url 0 0 = ⟨true, 1, []⟩ := by
  decide

/-- Claim C3 (amended): with the effective attempt budget
`b = max(backoff_attempts, 1)` (the code clamps `backoff` to at least 1):
if the fetch fails transiently `k` times and then succeeds and `b > k`,
`download_url` succeeds and leaves exactly one file at the destination,
sleeping `10, 20, ..., k*10` seconds between attempts; if `b <= k`, it
re-raises the final failure and leaves zero files (the partial file is
deleted before the error propagates), sleeping `10, 20, ..., (b-1)*10`
between attempts. -/
theorem download_url_spec (k backoff : Nat) :
    (k < (if backoff < 1 then 1 else backoff) →
      download_url k backoff = ⟨true, 1, sleepsFrom 0 k⟩) ∧
    ((if backoff < 1 then 1 else backoff) ≤ k →
      download_url k backoff =
        ⟨false, 0, sleepsFrom 0 ((if backoff < 1 then 1 else backoff) - 1)⟩) := by
  constructor
  · intro hk
    have h := fetch_url_go_ok k (if backoff < 1 then 1 else backoff) hk
      ((if backoff < 1 then 1 else backoff) + 1) 0 [] (by omega) (by omega)
    simp only [download_url, fetch_url, h, Nat.sub_zero, List.nil_append]
  · intro hk
    have hb : 0 < (if backoff < 1 then 1 else backoff) := by
      split <;> omega
    have h := fetch_url_go_error k (if backoff < 1 then 1 else backoff) hk
      ((if backoff < 1 then 1 else backoff) + 1) 0 [] (by omega) (by omega)
    simp only [download_url, fetch_url, h, Nat.sub_zero, List.nil_append]

/-- Witness for `download_url_spec`: with 5 attempts and 2 transient
failures the download succeeds, leaves one file, and sleeps 10 then 20
seconds; with 3 attempts and 7 failures it fails, leaves zero files, and
sleeps 10 then 20 seconds before the final raise. -/
theorem download_url_spec_witness :
    download_url 2 5 = ⟨true, 1, [10, 20]⟩ ∧
    download_url 7 3 = ⟨false, 0, [10, 20]⟩ :=
  ⟨(download_url_spec 2 5).1 (by decide), (download_url_spec 7 3).2 (by decide)⟩

/-!
Claim C4: order of the `.record` manifest.
-/

/-- Claim C4 is wrong about the code: `build_ppbt` writes the manifest
rows in the order `os.walk` yields the files and never sorts them.  When
the walk yields `bin/b` before `bin/a` (a legitimate directory-listing
order), the written rows are not in ascending path order. -/
theorem build_record_claim_false :
    ¬ List.Sorted rowle
      (build_record hashStub
        [("x86_64-linux-gnu/bin/b", [7]), ("x86_64-linux-gnu/bin/a", [7])]) := by
  intro h
  have hpair := (List.sorted_cons.mp h).1
    (record_row hashStub ("x86_64-linux-gnu/bin/a", [7])) (by simp [build_record])
  have hle : ("ppbt/_toolchain/x86_64-linux-gnu/bin/b" : String) ≤
      "ppbt/_toolchain/x86_64-linux-gnu/bin/a" := hpair
  rw [String.le_iff_toList_le] at hle
  revert hle
  decide

/-- Claim C4 (amended): the `.record` file written by `build_ppbt`
contains exactly one row per walked file, in the order the filesystem
walk yields the files — path re-rooted under `ppbt/_toolchain`, a
`sha256=` hash field, and the byte length.  The rows are not sorted by
`build_ppbt`; sorting by path happens only at extraction time, when the
manifest is merged into the installed-file record. -/
theorem build_record_walk_order (sha256 : List Nat → String)
    (walk : List WalkedFile) :
    build_record sha256 walk = walk.map (record_row sha256) := by
  have h : ∀ (ws : List WalkedFile) (acc : List Row),
      ws.foldl (fun rows f => rows ++ [record_row sha256 f]) acc =
        acc ++ ws.map (record_row sha256) := by
    intro ws
    induction ws with
    | nil => intro acc; simp
    | cons f fs ih => intro acc; simp [ih]
  simpa [build_record] using h walk []

/-!
Claim C5: record reconciliation at extraction time.
-/

/-- Claim C5: when the dist-info record exists and extraction proceeds
(toolchain missing, or overwrite requested), `extract` rewrites the
record as the concatenation of the pre-existing rows and the archive
manifest rows sorted by the path field: the rewritten rows are sorted by
path, are a permutation of that concatenation (so every pre-existing row
and every archive-manifest row appears), and are the rows carried by the
write effect. -/
theorem extract_record_merge (s : ToolchainFS) (overwrite : Bool)
    (hr : s.recordExists = true)
    (hx : s.toolchainExists = false ∨ overwrite = true) :
    List.Sorted rowle (extract s overwrite).1.recordRows ∧
    List.Perm (extract s overwrite).1.recordRows
      (s.recordRows ++ s.archiveRecordRows) ∧
    (∀ r, r ∈ s.recordRows ++ s.archiveRecordRows →
      r ∈ (extract s overwrite).1.recordRows) ∧
    FSEffect.writeRecord (extract s overwrite).1.recordRows ∈
      (extract s overwrite).2 := by
  have hcond : (s.toolchainExists && !overwrite) = false := by
    rcases hx with h | h <;> simp [h]
  refine ⟨?_, ?_, ?_, ?_⟩
  · simp [extract, hcond, hr]
    exact List.sorted_insertionSort rowle _
  · simp [extract, hcond, hr]
    exact List.perm_insertionSort rowle _
  · intro r hrmem
    have heq : (extract s overwrite).1.recordRows =
        List.insertionSort rowle (s.recordRows ++ s.archiveRecordRows) := by
      simp [extract, hcond, hr]
    rw [heq]
    exact ((List.perm_insertionSort rowle _).mem_iff).mpr hrmem
  · simp [extract, hcond, hr]

/-- Witness for `extract_record_merge` on `fsSample` (rows `[rowB]` in the
record, `[rowA]` in the archive manifest). -/
theorem extract_record_merge_witness :
    List.Sorted rowle (extract fsSample false).1.recordRows ∧
    List.Perm (extract fsSample false).1.recordRows
      (fsSample.recordRows ++ fsSample.archiveRecordRows) ∧
    (∀ r, r ∈ fsSample.recordRows ++ fsSample.archiveRecordRows →
      r ∈ (extract fsSample false).1.recordRows) ∧
    FSEffect.writeRecord (extract fsSample false).1.recordRows ∈
      (extract fsSample false).2 :=
  extract_record_merge fsSample false rfl (Or.inl rfl)

/-!
Claim C6: subprocess failures in the build pipeline.
-/

/-- Claim C6 is wrong about the code: on a fresh tree the `tar`
invocation that packages the toolchain is spawned through a bare
`subprocess.run`, and even when it exits with code 1 `build_ppbt`
returns normally — no `BuildError` is raised and the pipeline does not
stop. -/
theorem build_ppbt_tar_unchecked :
    tarFailCodes Cmd.tarCreate ≠ 0 ∧
    Cmd.tarCreate ∈ (build_ppbt_sim "./ct-ng" "cfg" freshFlags tarFailCodes).2 ∧
    (build_ppbt_sim "./ct-ng" "cfg" freshFlags tarFailCodes).1 = .ok := by
  decide

/-- Claim C6 (amended): the subprocesses invoked through `runcmd` — the
generator's `./configure --enable-local`, `make`, `ct-ng source` and
`ct-ng build` — are fatal on non-zero exit: the first of them to fail
raises a `BuildError` carrying the space-joined failed command line and
the pipeline stops.  The `git clone`, patchelf `./configure`, patchelf
`make` and `tar` invocations use `subprocess.run` directly, so their exit
codes are ignored: when all `runcmd`-wrapped commands succeed,
`build_ppbt` returns normally whatever the other commands' exit codes. -/
theorem build_ppbt_runcmd_fatal (ctng configPath : String)
    (f : BuildFlags) (codes : Cmd → Nat)
    (hctng : f.ctngExists = false) (harch : f.archdirExists = false)
    (hcfg : f.configExists = true) :
    (codes .ctngConfigure ≠ 0 →
      (build_ppbt_sim ctng configPath f codes).1 =
        .buildError ("Build cmd '" ++
          String.intercalate " " ["./configure", "--enable-local"] ++ "' failed")) ∧
    (codes .ctngConfigure = 0 → codes .ctngMake ≠ 0 →
      (build_ppbt_sim ctng configPath f codes).1 =
        .buildError ("Build cmd '" ++ String.intercalate " " ["make"] ++ "' failed")) ∧
    (codes .ctngConfigure = 0 → codes .ctngMake = 0 → codes .ctngSource ≠ 0 →
      (build_ppbt_sim ctng configPath f codes).1 =
        .buildError ("Build cmd '" ++
          String.intercalate " " [ctng, "source"] ++ "' failed")) ∧
    (codes .ctngConfigure = 0 → codes .ctngMake = 0 → codes .ctngSource = 0 →
      codes .ctngBuild ≠ 0 →
      (build_ppbt_sim ctng configPath f codes).1 =
        .buildError ("Build cmd '" ++
          String.intercalate " " [ctng, "build"] ++ "' failed")) ∧
    (codes .ctngConfigure = 0 → codes .ctngMake = 0 → codes .ctngSource = 0 →
      codes .ctngBuild = 0 →
      (build_ppbt_sim ctng configPath f codes).1 = .ok) := by
  refine ⟨?_, ?_, ?_, ?_, ?_⟩
  · intro h1
    simp [build_ppbt_sim, stageCompileCtng, runcmd, hctng, h1]
  · intro h1 h2
    simp [build_ppbt_sim, stageCompileCtng, runcmd, hctng, h1, h2]
  · intro h1 h2 h3
    simp [build_ppbt_sim, stageCompileCtng, stageBuild, runcmd,
      hctng, harch, hcfg, h1, h2, h3]
  · intro h1 h2 h3 h4
    simp [build_ppbt_sim, stageCompileCtng, stageBuild, runcmd,
      hctng, harch, hcfg, h1, h2, h3, h4]
  · intro h1 h2 h3 h4
    simp [build_ppbt_sim, stageCompileCtng, stageBuild, stagePatchelf, runcmd,
      hctng, harch, hcfg, h1, h2, h3, h4]

/-- Witness for `build_ppbt_runcmd_fatal`: on a fresh tree where the
generator's `make` exits with code 1, `build_ppbt` raises the build
error carrying the failed command line. -/
theorem build_ppbt_runcmd_fatal_witness :
    (build_ppbt_sim "./ct-ng" "cfg" freshFlags makeFailCodes).1 =
      .buildError ("Build cmd '" ++ String.intercalate " " ["make"] ++ "' failed") :=
  (build_ppbt_runcmd_fatal "./ct-ng" "cfg" freshFlags makeFailCodes
    rfl rfl rfl).2.1 rfl (by decide)

/-!
Claim C7: missing configuration file.
-/

/-- Claim C7: when the toolchain build stage runs (arch dir missing) and
the per-machine configuration file is absent, `build_ppbt` prints the
diagnostic and terminates the process via `sys.exit(1)` — outcome
`exited 1`, not a raised exception.  The exit-code hypotheses only say
the pipeline reaches the config check (the generator compiled fine). -/
theorem build_ppbt_config_missing (ctng configPath : String)
    (f : BuildFlags) (codes : Cmd → Nat)
    (harch : f.archdirExists = false) (hcfg : f.configExists = false)
    (h1 : codes .ctngConfigure = 0) (h2 : codes .ctngMake = 0) :
    (build_ppbt_sim ctng configPath f codes).1 =
      .exited 1 ("Toolchain config missing: " ++ configPath) := by
  cases hctng : f.ctngExists <;>
    simp [build_ppbt_sim, stageCompileCtng, stageBuild, runcmd,
      hctng, harch, hcfg, h1, h2]

/-- Witness for `build_ppbt_config_missing` at a concrete config path. -/
theorem build_ppbt_config_missing_witness :
    (build_ppbt_sim "./ct-ng" "src/ppbt/_config/x86_64/x86_64-linux-gnu-ct-ng.config"
      { freshFlags with configExists := false } zeroCodes).1 =
      .exited 1 ("Toolchain config missing: " ++
        "src/ppbt/_config/x86_64/x86_64-linux-gnu-ct-ng.config") :=
  build_ppbt_config_missing "./ct-ng"
    "src/ppbt/_config/x86_64/x86_64-linux-gnu-ct-ng.config"
    { freshFlags with configExists := false } zeroCodes rfl rfl rfl rfl

/-!
Claim C8: the derived build environment.
-/

/-- Claim C8: when the toolchain directory exists, `environ` returns
(with no side effects and no state change) the mapping whose keys are
exactly TOOLCHAIN_PATH, CC, CXX, CFLAGS, CPPFLAGS, CMAKE_FLAGS, LDFLAGS,
with CC `toolchain/bin/{triplet}-gcc`, CXX `toolchain/bin/{triplet}-g++`,
and the compile/link flags pointing into the toolchain's bundled sysroot
headers and libraries — all pure path arithmetic over the toolchain root
and the triplet. -/
theorem environ_spec (s : ToolchainFS) (toolchain triplet : String)
    (auto_extract : Bool) (h : s.toolchainExists = true) :
    environ s toolchain triplet auto_extract =
      .ok (s, [],
        [("TOOLCHAIN_PATH", toolchain),
         ("CC", toolchain ++ "/bin/" ++ triplet ++ "-gcc"),
         ("CXX", toolchain ++ "/bin/" ++ triplet ++ "-g++"),
         ("CFLAGS", "-I" ++ toolchain ++ "/" ++ triplet ++ "/sysroot/usr/include"),
         ("CPPFLAGS", "-I" ++ toolchain ++ "/" ++ triplet ++ "/sysroot/usr/include"),
         ("CMAKE_FLAGS", "-I" ++ toolchain ++ "/" ++ triplet ++ "/sysroot/usr/include"),
         ("LDFLAGS", "-L" ++ toolchain ++ "/" ++ triplet ++ "/sysroot/lib")]) := by
  simp [environ, environ_map, h]

/-- Witness for `environ_spec` at a concrete extracted state. -/
theorem environ_spec_witness :
    environ { fsSample with toolchainExists := true } "/tc" "x86_64-linux-gnu" false =
      .ok ({ fsSample with toolchainExists := true }, [],
        [("TOOLCHAIN_PATH", "/tc"),
         ("CC", "/tc" ++ "/bin/" ++ "x86_64-linux-gnu" ++ "-gcc"),
         ("CXX", "/tc" ++ "/bin/" ++ "x86_64-linux-gnu" ++ "-g++"),
         ("CFLAGS", "-I" ++ "/tc" ++ "/" ++ "x86_64-linux-gnu" ++ "/sysroot/usr/include"),
         ("CPPFLAGS", "-I" ++ "/tc" ++ "/" ++ "x86_64-linux-gnu" ++ "/sysroot/usr/include"),
         ("CMAKE_FLAGS", "-I" ++ "/tc" ++ "/" ++ "x86_64-linux-gnu" ++ "/sysroot/usr/include"),
         ("LDFLAGS", "-L" ++ "/tc" ++ "/" ++ "x86_64-linux-gnu" ++ "/sysroot/lib")]) :=
  environ_spec { fsSample with toolchainExists := true } "/tc" "x86_64-linux-gnu" false rfl

/-!
Claim C9: environment requested before extraction.
-/

/-- Claim C9: when the toolchain directory is missing, `environ` with
`auto_extract = false` fails with the "Toolchain not extracted" error and
performs no extraction; with `auto_extract = true` it runs `extract`
(whose effect trace contains the archive extraction) and then returns the
environment mapping. -/
theorem environ_auto_extract (s : ToolchainFS) (toolchain triplet : String)
    (h : s.toolchainExists = false) :
    environ s toolchain triplet false = .error "Toolchain not extracted" ∧
    environ s toolchain triplet true =
      .ok ((extract s false).1, (extract s false).2,
        environ_map toolchain triplet) ∧
    FSEffect.extractArchive ∈ (extract s false).2 := by
  refine ⟨by simp [environ, h], by simp [environ, h], ?_⟩
  cases hrec : s.recordExists <;> simp [extract, h, hrec]

/-- Witness for `environ_auto_extract` on `fsSample`. -/
theorem environ_auto_extract_witness :
    environ fsSample "/tc" "x86_64-linux-gnu" false =
      .error "Toolchain not extracted" ∧
    environ fsSample "/tc" "x86_64-linux-gnu" true =
      .ok ((extract fsSample false).1, (extract fsSample false).2,
        environ_map "/tc" "x86_64-linux-gnu") ∧
    FSEffect.extractArchive ∈ (extract fsSample false).2 :=
  environ_auto_extract fsSample "/tc" "x86_64-linux-gnu" rfl

/-!
Claim C10: extraction is a no-op when the toolchain is present.
-/

/-- Claim C10: when the toolchain directory already exists and
`overwrite` is false, `extract` returns the state unchanged with an
empty effect trace — no extraction, no record read, no record write. -/
theorem extract_frame (s : ToolchainFS) (h : s.toolchainExists = true) :
    extract s false = (s, []) := by
  simp [extract, h]

/-- Witness for `extract_frame` at a concrete state. -/
theorem extract_frame_witness :
    extract { fsSample with toolchainExists := true } false =
      ({ fsSample with toolchainExists := true }, []) :=
  extract_frame { fsSample with toolchainExists := true } rfl

end PPBT
